import Mathlib

/-!
Verification development for the image-build configuration resolver in
src/debian_cloud_images/cli/build.py.

The Python module is shallowly embedded below: pure computations become Lean
functions, the mutable `Check` object becomes explicit state passing over a
`Check` structure, raised Python exceptions become `Except PyErr` results, and
Python dicts become association lists updated in insertion order.
-/

namespace BuildCli

/-- PyErr models the Python exceptions that the embedded code can raise:
`ValueError` (BuildId.__init__, line 61) and `AttributeError` (reading an
instance attribute that no earlier method call has assigned). -/
inductive PyErr where
  | attributeError : String → PyErr
  | valueError : String → PyErr
deriving DecidableEq

/-- Date models the `datetime` value passed as `version_date`; only the
calendar fields consumed by `strftime('%Y%m%d')` are represented. -/
structure Date where
  year : Nat
  month : Nat
  day : Nat
deriving DecidableEq

/-- Ranges guaranteed by Python's `datetime` type: year 1..9999 (MINYEAR and
MAXYEAR), month 1..12, day 1..31. -/
def Date.valid (d : Date) : Prop :=
  1 ≤ d.year ∧ d.year ≤ 9999 ∧ 1 ≤ d.month ∧ d.month ≤ 12 ∧ 1 ≤ d.day ∧ d.day ≤ 31

/-- Decimal digit character for n < 10. -/
def digitChar (n : Nat) : Char := Char.ofNat (48 + n)

/-- strftimeYmd models `version_date.strftime('%Y%m%d')` (build.py lines 123,
127) for `datetime` values: the year zero-padded to four digits (documented
strftime behaviour for years 1..9999) followed by the two-digit zero-padded
month and day. -/
def strftimeYmd (d : Date) : String :=
  String.mk [digitChar (d.year / 1000 % 10), digitChar (d.year / 100 % 10),
             digitChar (d.year / 10 % 10), digitChar (d.year % 10),
             digitChar (d.month / 10 % 10), digitChar (d.month % 10),
             digitChar (d.day / 10 % 10), digitChar (d.day % 10)]

/-- stripConv removes a trailing `!s` conversion from a format field name, as
`str.format` does for the `{version!s}` and `{date!s}` fields of the templates
in build.py lines 41 and 47. -/
def stripConv (field : List Char) : List Char :=
  match field.reverse with
  | 's' :: '!' :: rest => rest.reverse
  | _ => field

/-- pyFormatAux scans the template character list of a Python `str.format`
call.  The first argument below the substitutions is `none` while scanning
literal text and `some acc` while inside a `{...}` replacement field, `acc`
holding the field characters read so far.  On the closing brace the named
substitution value is emitted (the templates in build.py use only simple named
fields, with an optional `!s` conversion). -/
def pyFormatAux (subs : List (String × String)) : Option (List Char) → List Char → List Char
  | none, [] => []
  | none, c :: rest =>
    if c = '{' then pyFormatAux subs (some []) rest
    else c :: pyFormatAux subs none rest
  | some _, [] => []
  | some acc, c :: rest =>
    if c = '}' then
      ((List.lookup (String.mk (stripConv acc)) subs).getD "").data
        ++ pyFormatAux subs none rest
    else pyFormatAux subs (some (acc ++ [c])) rest

/-- strFormat models `template.format(name1=value1, ...)` for the template
strings of build.py, keyword arguments passed as an association list. -/
def strFormat (template : String) (subs : List (String × String)) : String :=
  String.mk (pyFormatAux subs none template.data)

/-- BuildType (build.py lines 23-30): the payload record of one functional
enum member, holding the unconditional class contributions and the three
output templates.  The `name` field is the enum member name. -/
structure BuildType where
  name : String
  fai_classes : List String
  output_name : String
  output_version : String
  output_version_azure : String
deriving DecidableEq

/-- BuildTypeEnum member `dev` (build.py lines 37-42). -/
def BuildTypeEnum.dev : BuildType :=
  ⟨"dev",
   ["TYPE_DEV"],
   "debian-{release}-{vendor}-{arch}-{build_type}-{build_id}-{version}",
   "{version}",
   "0.0.{version!s}"⟩

/-- BuildTypeEnum member `official` (build.py lines 43-48). -/
def BuildTypeEnum.official : BuildType :=
  ⟨"official",
   [],
   "debian-{release}-{vendor}-{arch}-{build_type}-{version}",
   "{date}-{version}",
   "0.{date!s}.{version!s}"⟩

/-- Lowercase ASCII letter, the regex class `[a-z]`. -/
def isLowerAZ (c : Char) : Bool := 'a' ≤ c && c ≤ 'z'

/-- The regex class `[a-z0-9-]`. -/
def isIdChar (c : Char) : Bool := isLowerAZ c || ('0' ≤ c && c ≤ '9') || c = '-'

/-- buildIdCore decides whether a character list is matched by the regex body
`[a-z][a-z0-9-]+`: a lowercase letter followed by one or more characters from
`[a-z0-9-]`. -/
def buildIdCore : List Char → Bool
  | [] => false
  | c :: rest => isLowerAZ c && !rest.isEmpty && rest.all isIdChar

/-- reMatchBuildId models `re.compile(r"^[a-z][a-z0-9-]+$").match(s)` and, on
success, `.group(0)` (build.py lines 55-63).  Python's `$` (without
`re.MULTILINE`) matches at the end of the string or just before a newline at
the end of the string, so `s` matches either when the whole of `s` matches the
body, or when `s` is a body match followed by one final newline; `group(0)`
never includes that final newline. -/
def reMatchBuildId (s : String) : Option String :=
  if buildIdCore s.data then some s
  else if (s.data.getLast? == some '\n') && buildIdCore s.data.dropLast then
    some (String.mk s.data.dropLast)
  else none

/-- BuildId.init models `BuildId.__init__` (build.py lines 57-63): on a match
the stored `id` is `group(0)`; otherwise `ValueError('invalid build id value')`
is raised.  The message is a constant, independent of the input. -/
def BuildId.init (s : String) : Except PyErr String :=
  match reMatchBuildId s with
  | some g => .ok g
  | none => .error (.valueError "invalid build id value")

namespace Classes

/-- Classes.add models `Classes.add` (build.py lines 79-81): it appends the
tag to the backing list unconditionally (`self.__data.append(v)`), with no
membership test.  The `logger.info` call is I/O only and carries no state. -/
def add (data : List String) (v : String) : List String := data ++ [v]

/-- addAll models `MutableSet.__ior__`, used by the `self.classes |= ...`
statements of build.py: it iterates the right operand in order and calls
`add` on each element. -/
def addAll (data : List String) (xs : List String) : List String :=
  xs.foldl add data

end Classes

/-- Modelled from the spec: Release is a dimension record supplied by the
external Dimension Registry (`self.config_image.releases`, loaded from
configuration storage outside this repository).  Its fields are exactly the
attributes build.py reads: `basename`, `id`, `baseid`, `fai_classes`,
`arch_supports_linux_image_cloud` (lines 101-106, 135) and `name`
(line 261); spec section 3 lists the same fields. -/
structure Release where
  name : String
  basename : String
  id : String
  baseid : String
  fai_classes : List String
  arch_supports_linux_image_cloud : List String
deriving DecidableEq

/-- Modelled from the spec: Vendor is a dimension record supplied by the
external Dimension Registry.  Fields are the attributes build.py reads:
`name` (lines 110, 131, 261), `fai_classes` (line 111), `size` (line 283) and
`use_linux_image_cloud` (line 135); spec section 3 lists the same fields. -/
structure Vendor where
  name : String
  fai_classes : List String
  size : Nat
  use_linux_image_cloud : Bool
deriving DecidableEq

/-- Modelled from the spec: Architecture is a dimension record supplied by the
external Dimension Registry.  Fields are the attributes build.py reads:
`name` (lines 115, 135, 262) and `fai_classes` (line 116). -/
structure Arch where
  name : String
  fai_classes : List String
deriving DecidableEq

/-- setKey models Python dict assignment `m[k] = v`: an existing key keeps its
position and gets the new value, a new key is appended. -/
def setKey : List (String × String) → String → String → List (String × String)
  | [], k, v => [(k, v)]
  | (k0, v0) :: rest, k, v =>
    if k0 = k then (k, v) :: rest else (k0, v0) :: setKey rest k v

/-- Check (build.py lines 88-139) as explicit state.  Attributes that later
methods read before they have necessarily been assigned (`type`, `release`,
`vendor`, `arch`, `build_id`, `version`, `version_azure`) are `Option`s that
start as `none`; reading one that is still `none` is Python's
`AttributeError`. -/
structure Check where
  classes : List String
  env : List (String × String)
  info : List (String × String)
  type : Option BuildType
  release : Option Release
  vendor : Option Vendor
  arch : Option Arch
  build_id : Option String
  version : Option String
  version_azure : Option String
deriving DecidableEq

/-- Check.__init__ (build.py lines 89-94): fresh class list seeded by
`add('DEBIAN')` then `add('CLOUD')`, empty env and info dicts. -/
def Check.init : Check :=
  ⟨Classes.add (Classes.add [] "DEBIAN") "CLOUD", [], [], none, none, none, none,
   none, none, none⟩

/-- Check.set_type (build.py lines 96-99).  The method body performs only
assignments and cannot raise, so it succeeds from every state. -/
def Check.set_type (c : Check) (t : BuildType) : Except PyErr Check :=
  .ok { c with
        type := some t,
        info := setKey c.info "type" t.name,
        classes := Classes.addAll c.classes t.fai_classes }

/-- Check.set_release (build.py lines 101-106).  Assignments only; succeeds
from every state. -/
def Check.set_release (c : Check) (r : Release) : Except PyErr Check :=
  .ok { c with
        release := some r,
        info := setKey (setKey (setKey c.info "release" r.basename)
          "release_id" r.id) "release_baseid" r.baseid,
        classes := Classes.addAll c.classes r.fai_classes }

/-- Check.set_vendor (build.py lines 108-111).  Assignments only; succeeds
from every state. -/
def Check.set_vendor (c : Check) (v : Vendor) : Except PyErr Check :=
  .ok { c with
        vendor := some v,
        env := setKey c.env "CLOUD_RELEASE_ID" v.name,
        info := setKey c.info "vendor" v.name,
        classes := Classes.addAll c.classes v.fai_classes }

/-- Check.set_arch (build.py lines 113-116).  Assignments only; succeeds from
every state. -/
def Check.set_arch (c : Check) (a : Arch) : Except PyErr Check :=
  .ok { c with
        arch := some a,
        info := setKey c.info "arch" a.name,
        classes := Classes.addAll c.classes a.fai_classes }

/-- Check.set_version (build.py lines 118-132).  It reads `self.type`
(line 121) and `self.vendor` (line 131), raising `AttributeError` when the
corresponding setter has not run; otherwise it renders the two version
strings from the type's templates and stores them, the Azure-specific one
only when the vendor's name is `azure`.  `bid` is the `.id` string of the
validated `BuildId` argument. -/
def Check.set_version (c : Check) (version : Nat) (d : Date) (bid : String) :
    Except PyErr Check :=
  match c.type with
  | none => .error (.attributeError "type")
  | some t =>
    match c.vendor with
    | none => .error (.attributeError "vendor")
    | some v =>
      let ver := strFormat t.output_version
        [("version", toString version), ("date", strftimeYmd d)]
      let verAz := strFormat t.output_version_azure
        [("version", toString version), ("date", strftimeYmd d)]
      let info1 := setKey c.info "build_id" bid
      let env1 := setKey c.env "CLOUD_RELEASE_VERSION" ver
      let info2 := setKey info1 "version" ver
      if v.name = "azure" then
        .ok { c with
              build_id := some bid, version := some ver, version_azure := some verAz,
              env := setKey env1 "CLOUD_RELEASE_VERSION_AZURE" verAz,
              info := setKey info2 "version_azure" verAz }
      else
        .ok { c with
              build_id := some bid, version := some ver, version_azure := some verAz,
              env := env1, info := info2 }

/-- Check.check (build.py lines 134-139).  It evaluates
`self.arch.name in self.release.arch_supports_linux_image_cloud and
self.vendor.use_linux_image_cloud`; Python's `and` short-circuits, so
`self.vendor` is only read when the membership test succeeds.  One image
variant class is appended, then `LAST`. -/
def Check.check (c : Check) : Except PyErr Check :=
  match c.arch with
  | none => .error (.attributeError "arch")
  | some a =>
    match c.release with
    | none => .error (.attributeError "release")
    | some r =>
      if a.name ∈ r.arch_supports_linux_image_cloud then
        match c.vendor with
        | none => .error (.attributeError "vendor")
        | some v =>
          if v.use_linux_image_cloud then
            .ok { c with classes :=
              Classes.add (Classes.add c.classes "LINUX_IMAGE_CLOUD") "LAST" }
          else
            .ok { c with classes :=
              Classes.add (Classes.add c.classes "LINUX_IMAGE_BASE") "LAST" }
      else
        .ok { c with classes :=
          Classes.add (Classes.add c.classes "LINUX_IMAGE_BASE") "LAST" }

/-- runBuild is the resolver call sequence of `BuildCommand.__init__`
(build.py lines 248-256): construct `Check`, apply the four dimensions, apply
the version, optionally add `LOCALDEBS`, and finalize with `check`. -/
def runBuild (t : BuildType) (r : Release) (v : Vendor) (a : Arch)
    (version : Nat) (d : Date) (bid : String) (localdebs : Bool) :
    Except PyErr Check := do
  let c := Check.init
  let c ← c.set_type t
  let c ← c.set_release r
  let c ← c.set_vendor v
  let c ← c.set_arch a
  let c ← c.set_version version d bid
  let c := if localdebs then { c with classes := Classes.add c.classes "LOCALDEBS" } else c
  c.check

/-- templatedName models the `self.c.type.output_name.format(...)` call of
build.py lines 258-265, reading the attributes of the finalized `Check`.  Any
attribute still unassigned raises `AttributeError` (the precise attribute
name is not modelled for the keyword-argument reads). -/
def templatedName (c : Check) : Except PyErr String :=
  match c.type with
  | none => .error (.attributeError "type")
  | some t =>
    match c.release, c.vendor, c.arch, c.version, c.build_id with
    | some r, some v, some a, some ver, some bid =>
      .ok (strFormat t.output_name
        [("build_type", t.name), ("release", r.name), ("vendor", v.name),
         ("arch", a.name), ("version", ver), ("build_id", bid)])
    | _, _, _, _, _ => .error (.attributeError "unset")

/-- resolvedName models `name = override_name or self.c.type.output_name.format(...)`
(build.py line 258).  Python's `or` is lazy and tests truthiness: a supplied
non-empty override string is returned as-is and the format call is never
evaluated; `None` and the empty string both fall through to templating. -/
def resolvedName (override : Option String) (c : Check) : Except PyErr String :=
  match override with
  | some s => if s = "" then templatedName c else .ok s
  | none => templatedName c

/-- verS abbreviates the `self.version` expression of build.py lines 121-124:
the type's `output_version` template with `version` and the formatted date
substituted. -/
def verS (t : BuildType) (n : Nat) (d : Date) : String :=
  strFormat t.output_version [("version", toString n), ("date", strftimeYmd d)]

/-- verAzS abbreviates the `self.version_azure` expression of build.py lines
125-128. -/
def verAzS (t : BuildType) (n : Nat) (d : Date) : String :=
  strFormat t.output_version_azure [("version", toString n), ("date", strftimeYmd d)]

/-- Modelled from the spec's own words in section 4.1: raw fully matches
`[a-z][a-z0-9-]+` — lowercase start, at least two characters, and only
lowercase letters, digits and hyphens throughout.  Used as the spec-side
yardstick that claim C4 measures the source validator against. -/
def specFullMatch (s : String) : Bool :=
  decide (2 ≤ s.data.length) &&
  (match s.data.head? with
   | some c => isLowerAZ c
   | none => false) &&
  s.data.tail.all isIdChar

/-- Sample registry record used to instantiate hypotheses in closed witness
statements; the values mirror the C8 scenario of the spec. -/
def sampleRelease : Release := ⟨"bookworm", "bookworm", "12", "12", [], ["amd64"]⟩

/-- Sample vendor with the enhanced-image flag set and the Azure name. -/
def sampleVendorAzure : Vendor := ⟨"azure", [], 30, true⟩

/-- Sample vendor without the enhanced-image flag and with a non-Azure name. -/
def sampleVendorPlain : Vendor := ⟨"ec2", [], 8, false⟩

/-- Sample architecture record. -/
def sampleArch : Arch := ⟨"amd64", []⟩

/-- Sample finalized Check state used to instantiate the naming claims. -/
def sampleCheckDev : Check :=
  ⟨["DEBIAN", "CLOUD"], [], [], some BuildTypeEnum.dev, some sampleRelease,
   some sampleVendorAzure, some sampleArch, some "test-1", some "7", some "0.0.7"⟩

/-- Auxiliary: Classes.addAll is list append. -/
theorem Classes.addAll_eq (data xs : List String) :
    Classes.addAll data xs = data ++ xs := by
  induction xs generalizing data with
  | nil => simp [Classes.addAll]
  | cons x xs ih =>
    simp [Classes.addAll, Classes.add] at ih ⊢
    rw [ih, List.append_assoc]
    rfl

/-- Auxiliary: the dev `output_version` template renders the version value. -/
theorem strFormat_version (x y : String) :
    strFormat "{version}" [("version", x), ("date", y)] = x := by
  obtain ⟨xd⟩ := x
  show String.mk (xd ++ []) = String.mk xd
  rw [List.append_nil]

/-- Auxiliary: the official `output_version` template renders date-hyphen-version. -/
theorem strFormat_date_version (x y : String) :
    strFormat "{date}-{version}" [("version", x), ("date", y)] = y ++ "-" ++ x := by
  obtain ⟨xd⟩ := x
  obtain ⟨yd⟩ := y
  show String.mk (yd ++ '-' :: (xd ++ [])) = String.mk ((yd ++ ['-']) ++ xd)
  simp

/-- Auxiliary: the dev `output_version_azure` template. -/
theorem strFormat_azure_dev (x y : String) :
    strFormat "0.0.{version!s}" [("version", x), ("date", y)] = "0.0." ++ x := by
  obtain ⟨xd⟩ := x
  show String.mk ('0' :: '.' :: '0' :: '.' :: (xd ++ [])) =
    String.mk (['0', '.', '0', '.'] ++ xd)
  simp

/-- Auxiliary: the official `output_version_azure` template. -/
theorem strFormat_azure_official (x y : String) :
    strFormat "0.{date!s}.{version!s}" [("version", x), ("date", y)] =
      "0." ++ y ++ "." ++ x := by
  obtain ⟨xd⟩ := x
  obtain ⟨yd⟩ := y
  show String.mk ('0' :: '.' :: (yd ++ '.' :: (xd ++ []))) =
    String.mk (((['0', '.'] ++ yd) ++ ['.']) ++ xd)
  simp

/-- Auxiliary: the strftime model always yields eight characters. -/
theorem strftimeYmd_length (d : Date) : (strftimeYmd d).length = 8 := rfl

/-- Auxiliary: getLast? through a cons, phrased with Option.or so that simp
can walk an append chain. -/
theorem getLast?_cons_or {α : Type} (a : α) (l : List α) :
    (a :: l).getLast? = l.getLast?.or (some a) := by
  have h : a :: l = [a] ++ l := rfl
  rw [h, List.getLast?_append]
  rfl

/-- Auxiliary: the full resolver sequence of BuildCommand.__init__ always
succeeds, and its result state is given field by field: the class list is the
two base tags, then the four dimension contributions in application order, the
optional LOCALDEBS tag, the image-variant tag selected by the compatibility
rule, and LAST; env and info hold the projected entries, with the
Azure-specific ones present exactly for the vendor named azure. -/
theorem runBuild_eq (t : BuildType) (r : Release) (v : Vendor) (a : Arch)
    (n : Nat) (d : Date) (bid : String) (ld : Bool) :
    runBuild t r v a n d bid ld = .ok
      { classes := ["DEBIAN", "CLOUD"] ++ t.fai_classes ++ r.fai_classes
          ++ v.fai_classes ++ a.fai_classes
          ++ (if ld then ["LOCALDEBS"] else [])
          ++ (if a.name ∈ r.arch_supports_linux_image_cloud ∧ v.use_linux_image_cloud = true
              then ["LINUX_IMAGE_CLOUD"] else ["LINUX_IMAGE_BASE"]) ++ ["LAST"],
        env := [("CLOUD_RELEASE_ID", v.name), ("CLOUD_RELEASE_VERSION", verS t n d)]
          ++ (if v.name = "azure" then [("CLOUD_RELEASE_VERSION_AZURE", verAzS t n d)] else []),
        info := [("type", t.name), ("release", r.basename), ("release_id", r.id),
            ("release_baseid", r.baseid), ("vendor", v.name), ("arch", a.name),
            ("build_id", bid), ("version", verS t n d)]
          ++ (if v.name = "azure" then [("version_azure", verAzS t n d)] else []),
        type := some t, release := some r, vendor := some v, arch := some a,
        build_id := some bid, version := some (verS t n d),
        version_azure := some (verAzS t n d) } := by
  by_cases hm : a.name ∈ r.arch_supports_linux_image_cloud <;>
    by_cases hu : v.use_linux_image_cloud = true <;>
      by_cases haz : v.name = "azure" <;>
        cases ld <;>
          simp [runBuild, Check.init, Check.set_type, Check.set_release,
            Check.set_vendor, Check.set_arch, Check.set_version, Check.check,
            Classes.addAll_eq, Classes.add, setKey, verS, verAzS, hm, hu, haz,
            Bind.bind, Except.bind]

/-- C1: evaluation of the code at the failing input.  In the freshly
initialized accumulator state the tag DEBIAN is already present, yet
Classes.add appends a duplicate: the sequence grows from two to three
entries instead of being left unchanged. -/
theorem claim_C1_eval :
    "DEBIAN" ∈ Check.init.classes ∧
    Classes.add Check.init.classes "DEBIAN" = ["DEBIAN", "CLOUD", "DEBIAN"] ∧
    (Classes.add Check.init.classes "DEBIAN").length = 3 := by
  decide

/-- C2: for every dimension combination that does not itself contribute the
reserved tag LAST, the finalized classification sequence starts with the two
base tags DEBIAN and CLOUD, its last element is LAST, and LAST occurs exactly
once. -/
theorem claim_C2 (t : BuildType) (r : Release) (v : Vendor) (a : Arch)
    (n : Nat) (d : Date) (bid : String) (ld : Bool)
    (h : "LAST" ∉ t.fai_classes ++ r.fai_classes ++ v.fai_classes ++ a.fai_classes) :
    ∃ ck, runBuild t r v a n d bid ld = .ok ck ∧
      ck.classes.take 2 = ["DEBIAN", "CLOUD"] ∧
      ck.classes.getLast? = some "LAST" ∧
      ck.classes.count "LAST" = 1 := by
  have h1 : "LAST" ∉ t.fai_classes := fun hx => h (by simp [hx])
  have h2 : "LAST" ∉ r.fai_classes := fun hx => h (by simp [hx])
  have h3 : "LAST" ∉ v.fai_classes := fun hx => h (by simp [hx])
  have h4 : "LAST" ∉ a.fai_classes := fun hx => h (by simp [hx])
  refine ⟨_, runBuild_eq t r v a n d bid ld, ?_, ?_, ?_⟩
  · simp
  · by_cases hc : a.name ∈ r.arch_supports_linux_image_cloud ∧ v.use_linux_image_cloud = true <;>
      cases ld <;> simp [hc, getLast?_cons_or, List.getLast?_append]
  · by_cases hc : a.name ∈ r.arch_supports_linux_image_cloud ∧ v.use_linux_image_cloud = true <;>
      cases ld <;>
      simp [hc, List.count_append, List.count_cons,
        List.count_eq_zero.mpr h1, List.count_eq_zero.mpr h2,
        List.count_eq_zero.mpr h3, List.count_eq_zero.mpr h4]

/-- C2 witness: the theorem applied at a concrete combination. -/
theorem claim_C2_witness :
    ("LAST" ∉ BuildTypeEnum.dev.fai_classes ++ sampleRelease.fai_classes ++
      sampleVendorAzure.fai_classes ++ sampleArch.fai_classes) ∧
    (∃ ck, runBuild BuildTypeEnum.dev sampleRelease sampleVendorAzure sampleArch
        7 ⟨2024, 5, 1⟩ "test-1" false = .ok ck ∧
      ck.classes.take 2 = ["DEBIAN", "CLOUD"] ∧
      ck.classes.getLast? = some "LAST" ∧
      ck.classes.count "LAST" = 1) :=
  ⟨by decide, claim_C2 BuildTypeEnum.dev sampleRelease sampleVendorAzure sampleArch
    7 ⟨2024, 5, 1⟩ "test-1" false (by decide)⟩

/-- C3: for every dimension combination that does not itself contribute one
of the two image-variant tags, exactly one of LINUX_IMAGE_CLOUD and
LINUX_IMAGE_BASE is present after finalize, and it is LINUX_IMAGE_CLOUD if
and only if the architecture name is in the release's enhanced-support set
and the vendor's enhanced flag is true. -/
theorem claim_C3 (t : BuildType) (r : Release) (v : Vendor) (a : Arch)
    (n : Nat) (d : Date) (bid : String) (ld : Bool)
    (hc : "LINUX_IMAGE_CLOUD" ∉ t.fai_classes ++ r.fai_classes ++ v.fai_classes ++ a.fai_classes)
    (hb : "LINUX_IMAGE_BASE" ∉ t.fai_classes ++ r.fai_classes ++ v.fai_classes ++ a.fai_classes) :
    ∃ ck, runBuild t r v a n d bid ld = .ok ck ∧
      (("LINUX_IMAGE_CLOUD" ∈ ck.classes) ↔
        (a.name ∈ r.arch_supports_linux_image_cloud ∧ v.use_linux_image_cloud = true)) ∧
      (("LINUX_IMAGE_BASE" ∈ ck.classes) ↔
        ¬(a.name ∈ r.arch_supports_linux_image_cloud ∧ v.use_linux_image_cloud = true)) ∧
      ¬("LINUX_IMAGE_CLOUD" ∈ ck.classes ∧ "LINUX_IMAGE_BASE" ∈ ck.classes) := by
  have hc1 : "LINUX_IMAGE_CLOUD" ∉ t.fai_classes := fun hx => hc (by simp [hx])
  have hc2 : "LINUX_IMAGE_CLOUD" ∉ r.fai_classes := fun hx => hc (by simp [hx])
  have hc3 : "LINUX_IMAGE_CLOUD" ∉ v.fai_classes := fun hx => hc (by simp [hx])
  have hc4 : "LINUX_IMAGE_CLOUD" ∉ a.fai_classes := fun hx => hc (by simp [hx])
  have hb1 : "LINUX_IMAGE_BASE" ∉ t.fai_classes := fun hx => hb (by simp [hx])
  have hb2 : "LINUX_IMAGE_BASE" ∉ r.fai_classes := fun hx => hb (by simp [hx])
  have hb3 : "LINUX_IMAGE_BASE" ∉ v.fai_classes := fun hx => hb (by simp [hx])
  have hb4 : "LINUX_IMAGE_BASE" ∉ a.fai_classes := fun hx => hb (by simp [hx])
  refine ⟨_, runBuild_eq t r v a n d bid ld, ?_, ?_, ?_⟩ <;>
    by_cases h : a.name ∈ r.arch_supports_linux_image_cloud ∧ v.use_linux_image_cloud = true <;>
      cases ld <;>
      simp [h, hc1, hc2, hc3, hc4, hb1, hb2, hb3, hb4]

/-- C3 witness: the theorem applied at a concrete combination whose
compatibility condition is false (vendor flag unset). -/
theorem claim_C3_witness :
    ("LINUX_IMAGE_CLOUD" ∉ BuildTypeEnum.dev.fai_classes ++ sampleRelease.fai_classes ++
      sampleVendorPlain.fai_classes ++ sampleArch.fai_classes) ∧
    ("LINUX_IMAGE_BASE" ∉ BuildTypeEnum.dev.fai_classes ++ sampleRelease.fai_classes ++
      sampleVendorPlain.fai_classes ++ sampleArch.fai_classes) ∧
    (∃ ck, runBuild BuildTypeEnum.dev sampleRelease sampleVendorPlain sampleArch
        7 ⟨2024, 5, 1⟩ "test-1" false = .ok ck ∧
      (("LINUX_IMAGE_CLOUD" ∈ ck.classes) ↔
        (sampleArch.name ∈ sampleRelease.arch_supports_linux_image_cloud ∧
          sampleVendorPlain.use_linux_image_cloud = true)) ∧
      (("LINUX_IMAGE_BASE" ∈ ck.classes) ↔
        ¬(sampleArch.name ∈ sampleRelease.arch_supports_linux_image_cloud ∧
          sampleVendorPlain.use_linux_image_cloud = true)) ∧
      ¬("LINUX_IMAGE_CLOUD" ∈ ck.classes ∧ "LINUX_IMAGE_BASE" ∈ ck.classes)) :=
  ⟨by decide, by decide,
    claim_C3 BuildTypeEnum.dev sampleRelease sampleVendorPlain sampleArch
      7 ⟨2024, 5, 1⟩ "test-1" false (by decide) (by decide)⟩
/-- Auxiliary: spec-side full-match predicate agrees with the regex body
matcher derived from the source pattern. -/
theorem specFullMatch_eq (s : String) : specFullMatch s = buildIdCore s.data := by
  obtain ⟨d⟩ := s
  cases d with
  | nil => rfl
  | cons c rest => cases rest <;> simp [specFullMatch, buildIdCore]

/-- Auxiliary: a newline is not an identifier character. -/
theorem isIdChar_newline : isIdChar '\n' = false := by decide

/-- Auxiliary: appending a newline to a body match leaves the regex body
unmatched. -/
theorem buildIdCore_newline (l : List Char) (h : buildIdCore l = true) :
    buildIdCore (l ++ ['\n']) = false := by
  cases l with
  | nil => simp [buildIdCore] at h
  | cons c rest => simp [buildIdCore, List.all_append, isIdChar_newline]

/-- Auxiliary: the validator succeeds exactly when the whole input matches
the regex body or the input minus one final newline does. -/
theorem buildIdInit_ok_iff (s : String) :
    (BuildId.init s).isOk = true ↔
      (buildIdCore s.data = true ∨
        (s.data.getLast? = some '\n' ∧ buildIdCore s.data.dropLast = true)) := by
  unfold BuildId.init reMatchBuildId
  by_cases h1 : buildIdCore s.data = true <;>
    by_cases h2 : s.data.getLast? = some '\n' <;>
      by_cases h3 : buildIdCore s.data.dropLast = true <;>
        simp [h1, h2, h3, Except.isOk, Except.toBool]

/-- Auxiliary: the trailing-newline condition as a string decomposition. -/
theorem newline_decomp (s : String) :
    (s.data.getLast? = some '\n' ∧ buildIdCore s.data.dropLast = true) ↔
      ∃ t, s = t ++ "\n" ∧ buildIdCore t.data = true := by
  constructor
  · rintro ⟨hl, hc⟩
    rcases List.eq_nil_or_concat s.data with hnil | ⟨l, a, hla⟩
    · rw [hnil] at hl
      simp at hl
    · rw [List.concat_eq_append] at hla
      have ha : a = '\n' := by
        rw [hla, List.getLast?_concat] at hl
        exact Option.some.inj hl
      refine ⟨String.mk l, String.ext ?_, ?_⟩
      · show s.data = l ++ ['\n']
        rw [hla, ha]
      · show buildIdCore l = true
        rw [hla, List.dropLast_concat] at hc
        exact hc
  · rintro ⟨t, hst, hc⟩
    obtain ⟨td⟩ := t
    have hd : s.data = td ++ ['\n'] := by rw [hst]; rfl
    constructor
    · rw [hd, List.getLast?_concat]
    · rw [hd, List.dropLast_concat]
      exact hc

/-- C4 counterexample: the claim says the validator succeeds exactly on full
matches of the pattern and that failures cite the offending value.  But the
non-full-match input consisting of `ab` and a trailing newline is accepted
(with the newline dropped), and two different invalid inputs produce the very
same error value, whose constant message cites no value. -/
theorem claim_C4_counterexample :
    BuildId.init "ab\n" = .ok "ab" ∧
    BuildId.init "1abc" = .error (.valueError "invalid build id value") ∧
    BuildId.init "1abc" = BuildId.init "AB" :=
  ⟨rfl, rfl, rfl⟩

/-- C4 amended: the validator succeeds exactly when the input fully matches
the pattern or is a full match followed by one trailing newline; on a full
match the stored identifier is the input itself; any failure raises the
constant message `invalid build id value`, which does not mention the
offending input; `test-1` is accepted while `1abc` and `AB` are rejected. -/
theorem claim_C4_amended (s : String) :
    ((BuildId.init s).isOk = true ↔
      (specFullMatch s = true ∨ ∃ t, s = t ++ "\n" ∧ specFullMatch t = true)) ∧
    (specFullMatch s = true → BuildId.init s = .ok s) ∧
    ((BuildId.init s).isOk = false →
      BuildId.init s = .error (.valueError "invalid build id value")) ∧
    BuildId.init "test-1" = .ok "test-1" ∧
    BuildId.init "1abc" = .error (.valueError "invalid build id value") ∧
    BuildId.init "AB" = .error (.valueError "invalid build id value") := by
  refine ⟨?_, ?_, ?_, rfl, rfl, rfl⟩
  · rw [buildIdInit_ok_iff, newline_decomp]
    simp only [← specFullMatch_eq]
  · intro h
    rw [specFullMatch_eq] at h
    simp [BuildId.init, reMatchBuildId, h]
  · intro hf
    rcases hm : reMatchBuildId s with _ | g <;>
      simp [BuildId.init, hm, Except.isOk, Except.toBool] at hf ⊢

/-- C5: after set_version with the vendor applied, the version string for the
dev build type is the decimal rendering of the version number and for the
official build type is the eight-digit date, a hyphen, and the version
number; the platform-specific version is `0.0.{version}` for dev and
`0.{date}.{version}` for official. -/
theorem claim_C5 (c : Check) (v : Vendor) (n : Nat) (d : Date) (bid : String)
    (hv : c.vendor = some v) (hd : d.valid) :
    (c.type = some BuildTypeEnum.dev →
      ∃ ck, c.set_version n d bid = .ok ck ∧
        ck.version = some (toString n) ∧
        ck.version_azure = some ("0.0." ++ toString n)) ∧
    (c.type = some BuildTypeEnum.official →
      ∃ ck, c.set_version n d bid = .ok ck ∧
        ck.version = some (strftimeYmd d ++ "-" ++ toString n) ∧
        (strftimeYmd d).length = 8 ∧
        ck.version_azure = some ("0." ++ strftimeYmd d ++ "." ++ toString n)) := by
  constructor <;> intro ht <;>
    by_cases haz : v.name = "azure" <;>
      simp [Check.set_version, ht, hv, haz, BuildTypeEnum.dev, BuildTypeEnum.official,
        strFormat_version, strFormat_azure_dev, strFormat_date_version,
        strFormat_azure_official, strftimeYmd_length]

/-- C5 witness: the theorem applied at a concrete dev-typed state. -/
theorem claim_C5_witness :
    ((⟨["DEBIAN", "CLOUD"], [], [], some BuildTypeEnum.dev, none,
        some sampleVendorAzure, none, none, none, none⟩ : Check).vendor =
      some sampleVendorAzure) ∧
    (Date.valid ⟨2024, 5, 1⟩) ∧
    (((⟨["DEBIAN", "CLOUD"], [], [], some BuildTypeEnum.dev, none,
        some sampleVendorAzure, none, none, none, none⟩ : Check).type =
          some BuildTypeEnum.dev →
      ∃ ck, (⟨["DEBIAN", "CLOUD"], [], [], some BuildTypeEnum.dev, none,
        some sampleVendorAzure, none, none, none, none⟩ : Check).set_version
          7 ⟨2024, 5, 1⟩ "test-1" = .ok ck ∧
        ck.version = some (toString 7) ∧
        ck.version_azure = some ("0.0." ++ toString 7)) ∧
    ((⟨["DEBIAN", "CLOUD"], [], [], some BuildTypeEnum.dev, none,
        some sampleVendorAzure, none, none, none, none⟩ : Check).type =
          some BuildTypeEnum.official →
      ∃ ck, (⟨["DEBIAN", "CLOUD"], [], [], some BuildTypeEnum.dev, none,
        some sampleVendorAzure, none, none, none, none⟩ : Check).set_version
          7 ⟨2024, 5, 1⟩ "test-1" = .ok ck ∧
        ck.version = some (strftimeYmd ⟨2024, 5, 1⟩ ++ "-" ++ toString 7) ∧
        (strftimeYmd ⟨2024, 5, 1⟩).length = 8 ∧
        ck.version_azure =
          some ("0." ++ strftimeYmd ⟨2024, 5, 1⟩ ++ "." ++ toString 7))) :=
  ⟨rfl, by constructor <;> simp [Date.valid],
    claim_C5 ⟨["DEBIAN", "CLOUD"], [], [], some BuildTypeEnum.dev, none,
      some sampleVendorAzure, none, none, none, none⟩ sampleVendorAzure
      7 ⟨2024, 5, 1⟩ "test-1" rfl (by simp [Date.valid])⟩

/-- C6: after the full resolver sequence, the environment key
CLOUD_RELEASE_VERSION_AZURE and the metadata key version_azure are present
exactly when the vendor's name is azure, in which case both hold the
platform-specific version string. -/
theorem claim_C6 (t : BuildType) (r : Release) (v : Vendor) (a : Arch)
    (n : Nat) (d : Date) (bid : String) (ld : Bool) :
    ∃ ck, runBuild t r v a n d bid ld = .ok ck ∧
      ((List.lookup "CLOUD_RELEASE_VERSION_AZURE" ck.env).isSome = true ↔
        v.name = "azure") ∧
      ((List.lookup "version_azure" ck.info).isSome = true ↔ v.name = "azure") ∧
      (v.name = "azure" →
        List.lookup "CLOUD_RELEASE_VERSION_AZURE" ck.env =
          some (strFormat t.output_version_azure
            [("version", toString n), ("date", strftimeYmd d)]) ∧
        List.lookup "version_azure" ck.info =
          some (strFormat t.output_version_azure
            [("version", toString n), ("date", strftimeYmd d)])) := by
  refine ⟨_, runBuild_eq t r v a n d bid ld, ?_, ?_, ?_⟩ <;>
    by_cases haz : v.name = "azure" <;>
      simp [haz, verAzS, List.lookup]
/-- C7 counterexample: the claim says every setter invoked from a state other
than its expected predecessor fails with a fatal sequencing error.  But
set_release invoked on the freshly constructed resolver (state Empty, whose
expected predecessor for set_release is TypeApplied) raises nothing: it
returns the advanced state with the release metadata recorded. -/
theorem claim_C7_counterexample :
    Check.set_release Check.init sampleRelease =
      .ok { Check.init with
            release := some sampleRelease,
            info := [("release", "bookworm"), ("release_id", "12"),
              ("release_baseid", "12")] } := rfl

/-- C7 amended: the resolver enforces no state machine.  The four dimension
setters succeed from every state, in any order; only set_version fails when
type or vendor is still unassigned (an AttributeError, the only sequencing
enforcement), and finalize fails exactly when arch or release is unassigned,
or vendor is unassigned while the membership half of the compatibility
condition holds. -/
theorem claim_C7_amended :
    (∀ (c : Check) (t : BuildType), (c.set_type t).isOk = true) ∧
    (∀ (c : Check) (r : Release), (c.set_release r).isOk = true) ∧
    (∀ (c : Check) (v : Vendor), (c.set_vendor v).isOk = true) ∧
    (∀ (c : Check) (a : Arch), (c.set_arch a).isOk = true) ∧
    (∀ (c : Check) (n : Nat) (d : Date) (bid : String),
      (c.set_version n d bid).isOk = (c.type.isSome && c.vendor.isSome)) ∧
    (∀ c : Check, (c.check).isOk = true ↔
      ∃ a r, c.arch = some a ∧ c.release = some r ∧
        (a.name ∈ r.arch_supports_linux_image_cloud → c.vendor.isSome = true)) := by
  refine ⟨fun c t => rfl, fun c r => rfl, fun c v => rfl, fun c a => rfl, ?_, ?_⟩
  · intro c n d bid
    rcases hty : c.type with _ | t <;> rcases hv : c.vendor with _ | v <;>
      simp [Check.set_version, hty, hv, Except.isOk, Except.toBool]
    by_cases haz : v.name = "azure" <;> simp [haz]
  · intro c
    rcases ha : c.arch with _ | a <;> rcases hr : c.release with _ | r <;>
      simp [Check.check, ha, hr, Except.isOk, Except.toBool]
    by_cases hm : a.name ∈ r.arch_supports_linux_image_cloud
    · rcases hv : c.vendor with _ | v <;> simp [hm, hv]
      by_cases hu : v.use_linux_image_cloud <;> simp [hu]
    · simp [hm]

/-- C8: the concrete official/bookworm/azure/amd64 scenario.  For any registry
data carrying the scenario's names and flags (and not itself contributing the
baseline variant tag), the resolved version is 20240501-42, the
platform-specific version is 0.20240501.42, the templated output name is
debian-bookworm-azure-amd64-official-20240501-42, and the classification
sequence contains LINUX_IMAGE_CLOUD and not LINUX_IMAGE_BASE. -/
theorem claim_C8 (bn rid rbid : String) (rc vc ac sup : List String) (sz : Nat)
    (hb : "LINUX_IMAGE_BASE" ∉ rc ++ vc ++ ac) (hs : "amd64" ∈ sup) :
    ∃ ck, runBuild BuildTypeEnum.official ⟨"bookworm", bn, rid, rbid, rc, sup⟩
        ⟨"azure", vc, sz, true⟩ ⟨"amd64", ac⟩ 42 ⟨2024, 5, 1⟩ "test-1" false = .ok ck ∧
      ck.version = some "20240501-42" ∧
      ck.version_azure = some "0.20240501.42" ∧
      resolvedName none ck = .ok "debian-bookworm-azure-amd64-official-20240501-42" ∧
      "LINUX_IMAGE_CLOUD" ∈ ck.classes ∧
      "LINUX_IMAGE_BASE" ∉ ck.classes := by
  have hb1 : "LINUX_IMAGE_BASE" ∉ rc := fun hx => hb (by simp [hx])
  have hb2 : "LINUX_IMAGE_BASE" ∉ vc := fun hx => hb (by simp [hx])
  have hb3 : "LINUX_IMAGE_BASE" ∉ ac := fun hx => hb (by simp [hx])
  refine ⟨_, runBuild_eq BuildTypeEnum.official ⟨"bookworm", bn, rid, rbid, rc, sup⟩
    ⟨"azure", vc, sz, true⟩ ⟨"amd64", ac⟩ 42 ⟨2024, 5, 1⟩ "test-1" false,
    ?_, ?_, ?_, ?_, ?_⟩
  · rfl
  · rfl
  · rfl
  · simp [hs]
  · simp [hs, hb1, hb2, hb3, BuildTypeEnum.official]

/-- C8 witness: the theorem applied at fully concrete registry data. -/
theorem claim_C8_witness :
    ("LINUX_IMAGE_BASE" ∉ ([] ++ [] ++ [] : List String)) ∧
    ("amd64" ∈ ["amd64"]) ∧
    (∃ ck, runBuild BuildTypeEnum.official ⟨"bookworm", "bookworm", "12", "12", [], ["amd64"]⟩
        ⟨"azure", [], 30, true⟩ ⟨"amd64", []⟩ 42 ⟨2024, 5, 1⟩ "test-1" false = .ok ck ∧
      ck.version = some "20240501-42" ∧
      ck.version_azure = some "0.20240501.42" ∧
      resolvedName none ck = .ok "debian-bookworm-azure-amd64-official-20240501-42" ∧
      "LINUX_IMAGE_CLOUD" ∈ ck.classes ∧
      "LINUX_IMAGE_BASE" ∉ ck.classes) :=
  ⟨by decide, by decide,
    claim_C8 "bookworm" "12" "12" [] [] [] ["amd64"] 30 (by decide) (by decide)⟩

/-- C9 counterexample: the claim says every supplied override name is used
verbatim.  But the supplied override consisting of the empty string is falsy
in Python's `or`, so the templated name is produced instead of the override. -/
theorem claim_C9_counterexample :
    resolvedName (some "") sampleCheckDev =
      .ok "debian-bookworm-azure-amd64-dev-test-1-7" ∧
    resolvedName (some "") sampleCheckDev ≠ .ok "" := by
  refine ⟨rfl, fun hx => ?_⟩
  have h2 : "debian-bookworm-azure-amd64-dev-test-1-7" = "" :=
    Except.ok.inj (by rw [← hx]; rfl)
  exact absurd h2 (by decide)

/-- C9 amended: every supplied non-empty override name is used verbatim with
no template substitution; the template is rendered exactly when no override
is supplied or the supplied override is the empty string. -/
theorem claim_C9_amended (s : String) (c : Check) (h : s ≠ "") :
    resolvedName (some s) c = .ok s ∧
    resolvedName none c = templatedName c ∧
    resolvedName (some "") c = templatedName c := by
  refine ⟨?_, rfl, rfl⟩
  simp [resolvedName, h]

/-- C9 witness: the amended theorem applied at a concrete override. -/
theorem claim_C9_amended_witness :
    ("my-name" ≠ "") ∧
    (resolvedName (some "my-name") sampleCheckDev = .ok "my-name" ∧
      resolvedName none sampleCheckDev = templatedName sampleCheckDev ∧
      resolvedName (some "") sampleCheckDev = templatedName sampleCheckDev) :=
  ⟨by decide, claim_C9_amended "my-name" sampleCheckDev (by decide)⟩

/-- C10: for every string matching the identifier pattern, the same string
followed by one trailing newline is also accepted by the validator and the
stored identifier drops the newline, so some accepted raw input differs from
its stored identifier. -/
theorem claim_C10 (s : String) (h : buildIdCore s.data = true) :
    BuildId.init (s ++ "\n") = .ok s ∧
    ∃ raw g, (BuildId.init raw = .ok g ∧ g ≠ raw) := by
  refine ⟨?_, "ab\n", "ab", rfl, by decide⟩
  obtain ⟨d⟩ := s
  have h2 : buildIdCore (d ++ ['\n']) = false := buildIdCore_newline d h
  have hd : (String.mk d ++ "\n").data = d ++ ['\n'] := rfl
  simp [BuildId.init, reMatchBuildId, hd, h2, List.getLast?_concat,
    List.dropLast_concat, h]

/-- C10 witness: the theorem applied at the accepted identifier test-1. -/
theorem claim_C10_witness :
    buildIdCore "test-1".data = true ∧
    (BuildId.init ("test-1" ++ "\n") = .ok "test-1" ∧
      ∃ raw g, (BuildId.init raw = .ok g ∧ g ≠ raw)) :=
  ⟨by decide, claim_C10 "test-1" (by decide)⟩

end BuildCli
